import Mathlib

/-!
# UDP traffic exerciser: source (`apps/source/main.c`) and sink (`apps/sink/main.c`)

A shallow embedding of the two programs.  Machine integers are `Nat`/`Int`
with the wrap-around written out (`% 2^16`, `% 2^32`); the platform is the
32-bit one the programs print for (`int`, `unsigned`, `size_t` of 32 bits).
Calls into the operating system (sockets, timer, random generator, address
parsing, `atoi`, thread creation) are parameters of the model: every theorem
quantifies over them.  Text written with `printf`/`puts` is a list of lines,
the terminating newline of each call left out.
-/

namespace LCN

/-! ## Constants -/

/-- The constant `SINK_PORT` of both programs. -/
def SINK_PORT : Nat := 6383

/-- The constant `SOURCE_BUFSIZE` of `apps/source/main.c`. -/
def SOURCE_BUFSIZE : Nat := 1232

/-- The constant `SINK_BUFSIZE` of `apps/sink/main.c`. -/
def SINK_BUFSIZE : Nat := 1232

/-- The constant `SOURCE_BUF_OFFSET` of `apps/source/main.c`. -/
def SOURCE_BUF_OFFSET : Nat := 48

/-- Modelled from the spec: `KERNEL_PID_UNDEF`, the sentinel "none" of the
run marker (declared in `thread.h` of the operating system, value 0). -/
def KERNEL_PID_UNDEF : Int := 0

/-- Modelled from the spec: `US_PER_MS` of `timex.h`, the unit conversion from
milliseconds to microseconds. -/
def US_PER_MS : Int := 1000

/-! ## Machine integers -/

/-- Conversion of a C `int` expression to `uint16_t`. -/
def to_uint16 (x : Int) : Nat := (x % 2 ^ 16).toNat

/-- Conversion of a C integer expression to `uint32_t` (also `size_t` and
`unsigned`). -/
def to_uint32 (x : Int) : Nat := (x % 2 ^ 32).toNat

/-- Value of an `int` expression, wrapped to 32 bits (twos complement). -/
def to_int32 (x : Int) : Int := (x + 2 ^ 31) % 2 ^ 32 - 2 ^ 31

/-! ## Byte order -/

/-- The type `network_uint16_t` of `byteorder.h`: two bytes in memory order. -/
structure network_uint16_t where
  u8_0 : Nat
  u8_1 : Nat
deriving DecidableEq

/-- Modelled from the spec: `byteorder_htons` of `byteorder.h` (not part of
the sources), the 16-bit big-endian encoding: high byte first. -/
def byteorder_htons (v : Nat) : network_uint16_t :=
  { u8_0 := v / 256 % 256, u8_1 := v % 256 }

/-- Modelled from the spec: `byteorder_ntohs` of `byteorder.h` (not part of
the sources), the big-endian 16-bit value of the two bytes. -/
def byteorder_ntohs (w : network_uint16_t) : Nat :=
  (w.u8_0 % 256) * 256 + w.u8_1 % 256

/-- The bytes of an array of `network_uint16_t`, in memory order. -/
def bytes_of : List network_uint16_t → List Nat
  | [] => []
  | w :: ws => w.u8_0 :: w.u8_1 :: bytes_of ws

/-- An array of `network_uint16_t` read from bytes in memory order. -/
def words_of : List Nat → List network_uint16_t
  | b0 :: b1 :: bs => { u8_0 := b0, u8_1 := b1 } :: words_of bs
  | _ => []

/-! ## printf conversions -/

/-- The conversion `%04x`: lowercase hexadecimal, zero-padded to width 4. -/
def fmt_04x (v : Nat) : String :=
  let ds := Nat.toDigits 16 v
  String.mk (List.replicate (4 - ds.length) '0' ++ ds)

/-- The conversion `%u`. -/
def fmt_u (v : Nat) : String := Nat.repr v

/-- The conversion `%d`. -/
def fmt_d (v : Int) : String :=
  if v < 0 then "-" ++ Nat.repr (-v).toNat else Nat.repr v.toNat

/-! ## Source: data model -/

/-- The fields of `sock_udp_ep_t` the programs write: the IPv6 address (16
bytes) and the port.  `family` and `netif` keep their `SOCK_IPV6_EP_ANY`
values throughout. -/
structure sock_udp_ep_t where
  addr : List Nat
  port : Nat
deriving DecidableEq

/-- The struct `_source_config_t`. -/
structure _source_config_t where
  remote : sock_udp_ep_t
  data_len : Nat
  num : Nat
  delay_min : Nat
  delay_max : Nat
deriving DecidableEq

/-- What `ipv6_addr_from_str(result, str)` leaves behind: whether it returned
non-`NULL`, and the content of `*result` after the call. -/
structure Ipv6FromStr where
  ok : Bool
  result : List Nat
deriving DecidableEq

/-- The calls the source program makes into its environment. -/
structure SourceEnv where
  /-- The call `atoi(str)`. -/
  atoi : String → Int
  /-- The call `ipv6_addr_from_str(result, str)`, given the old content of `*result`. -/
  ipv6_addr_from_str : List Nat → String → Ipv6FromStr
  /-- The value `thread_create(...)` returns. -/
  thread_create : Int
  /-- The value `sock_udp_create(&sock, NULL, &remote, 0)` returns. -/
  sock_udp_create : sock_udp_ep_t → Int
  /-- The value of `random_uint32_range(a, b)` in iteration `i`. -/
  random_uint32_range : Nat → Nat → Nat → Nat
  /-- The value `sock_udp_send` returns in iteration `i`, as stored in `res`. -/
  sock_udp_send : Nat → Int

/-! ## Source: the stamping loop (lines 105-108) -/

/-- The buffer `_source_buf` together with the word indices stored to so far,
in the order of the stores. -/
structure StampState where
  buf : List network_uint16_t
  written : List Nat
deriving DecidableEq

/-- The inner loop of `_source_thread`:
`for (unsigned j = 0; j < data_len / sizeof(network_uint16_t); j += SOURCE_BUF_OFFSET)
   _source_buf[j] = byteorder_htons(id);`
started at `j`; `none` when the fuel runs out. -/
def stamp_loop (data_len id : Nat) : Nat → Nat → StampState → Option StampState
  | 0, _, _ => none
  | fuel + 1, j, s =>
    if j < data_len / 2 then
      stamp_loop data_len id fuel ((j + SOURCE_BUF_OFFSET) % 2 ^ 32)
        { buf := s.buf.set j (byteorder_htons id), written := s.written ++ [j] }
    else some s

/-! ## Source: the send loop (lines 98-116) -/

/-- One pass through the body of the send loop, as seen from outside. -/
structure Attempt where
  /-- The loop counter `i`. -/
  i : Nat
  /-- The sequence id `id` the pass stamps and logs. -/
  id : Nat
  /-- The arguments of `random_uint32_range`. -/
  range_min : Nat
  range_max : Nat
  /-- The period given to `xtimer_periodic_wakeup`. -/
  period : Nat
  /-- The word indices of `_source_buf` the pass stored to. -/
  written : List Nat
  /-- The bytes handed to `sock_udp_send`: `data_len` bytes of `_source_buf`. -/
  payload : List Nat
  /-- The value of `res`. -/
  res : Int
  /-- The line printed. -/
  line : String
deriving DecidableEq

/-- The variables of the send loop, the lines printed and the passes made. -/
structure LoopState where
  i : Nat
  id : Nat
  buf : List network_uint16_t
  out : List String
  sent : List Attempt
deriving DecidableEq

/-- The line of lines 109-115: `err;%04x;%d` with `-res` when `res < 0`,
`out;%04x` otherwise. -/
def send_line (id : Nat) (res : Int) : String :=
  if res < 0 then "err;" ++ fmt_04x id ++ ";" ++ fmt_d (to_int32 (-res))
  else "out;" ++ fmt_04x id

/-- The loop `for (unsigned i = 0; i < config.num; i++, id++)` of
`_source_thread`, from the state `st`; `stampFuel` bounds each run of the
inner loop, the next argument bounds the passes; `none` when either runs out. -/
def send_loop (env : SourceEnv) (config : _source_config_t) (stampFuel : Nat) :
    Nat → LoopState → Option LoopState
  | 0, _ => none
  | fuel + 1, st =>
    if st.i < config.num then
      let period := env.random_uint32_range st.i config.delay_min config.delay_max
      match stamp_loop config.data_len st.id stampFuel 0 { buf := st.buf, written := [] } with
      | none => none
      | some s =>
        let res := env.sock_udp_send st.i
        let line := send_line st.id res
        send_loop env config stampFuel fuel
          { i := (st.i + 1) % 2 ^ 32
            id := (st.id + 1) % 2 ^ 16
            buf := s.buf
            out := st.out ++ [line]
            sent := st.sent ++
              [{ i := st.i, id := st.id, range_min := config.delay_min,
                 range_max := config.delay_max, period := period,
                 written := s.written,
                 payload := (bytes_of s.buf).take config.data_len,
                 res := res, line := line }] }
    else some st

/-- What a run of `_source_thread` leaves behind. -/
structure ThreadResult where
  /-- The lines printed. -/
  out : List String
  /-- The passes of the send loop. -/
  sent : List Attempt
  /-- The buffer `_source_buf` at the end. -/
  buf : List network_uint16_t
  /-- The run marker `_source_pid` at the end. -/
  _source_pid : Int
  /-- Whether `sock_udp_close` was called. -/
  closed : Bool
deriving DecidableEq

/-- The four lines printed on entry (lines 87-92). -/
def start_lines (config : _source_config_t) : List String :=
  [ "start sending: data_len: " ++ fmt_u config.data_len,
    "               num: " ++ fmt_u config.num,
    "               delay min: " ++ fmt_u config.delay_min,
    "               delay max: " ++ fmt_u config.delay_max ]

/-- The function `_source_thread`, run on its copy `config` of the request.
The handshake on `_source_started` is scheduling and is not represented. -/
def _source_thread (env : SourceEnv) (config : _source_config_t) (fuel : Nat) :
    Option ThreadResult :=
  let buf0 : List network_uint16_t :=
    List.replicate (SOURCE_BUFSIZE / 2) { u8_0 := 0, u8_1 := 0 }
  if env.sock_udp_create config.remote < 0 then
    some { out := start_lines config ++ ["Error creating UDP sock"], sent := [],
           buf := buf0, _source_pid := KERNEL_PID_UNDEF, closed := false }
  else
    match send_loop env config fuel fuel
        { i := 0, id := 0, buf := buf0, out := start_lines config, sent := [] } with
    | none => none
    | some st =>
      some { out := st.out, sent := st.sent, buf := st.buf,
             _source_pid := KERNEL_PID_UNDEF, closed := true }

/-! ## Source: the command (lines 124-167) -/

/-- The static state of the source program, and the sequence counter `id` of
the thread in flight (meaningful while `_source_pid` is set). -/
structure SourceState where
  _source_pid : Int
  _source_config : _source_config_t
  _source_buf : List network_uint16_t
  id : Nat
deriving DecidableEq

/-- What a call of `_source_cmd` leaves behind. -/
structure CmdResult where
  /-- The value returned; `none` when the call does not return: it stays in
  `mutex_lock(&_source_started)`, either because no thread was created to
  unlock, or because the thread has already ended and locked again. -/
  ret : Option Int
  /-- The static state after the call. -/
  state : SourceState
  /-- The lines printed. -/
  out : List String
  /-- The request the new thread copies from `*arg`, if one was started. -/
  started : Option _source_config_t
deriving DecidableEq

/-- The function `_source_usage`. -/
def _source_usage (cmd : String) : String :=
  "usage: " ++ cmd ++
    " <addr> <port> <data_len> <num> <delay mean [min] in ms> [delay max in ms]"

/-- The element `argv[i]`. -/
def arg (argv : List String) (i : Nat) : String := argv.getD i ""

/-- Lines 138-151 of `_source_cmd`: the fields written to `_source_config`
before the check. -/
def parse_config (env : SourceEnv) (c : _source_config_t) (argv : List String) :
    _source_config_t :=
  let c1 : _source_config_t :=
    if argv.length > 6 then
      { c with
        delay_min := to_uint32 (env.atoi (arg argv 5) * US_PER_MS)
        delay_max := to_uint32 (env.atoi (arg argv 6) * US_PER_MS) }
    else
      let delay_mean := to_uint32 (env.atoi (arg argv 5) * US_PER_MS)
      let delay_var := delay_mean / 2
      { c with
        delay_min := to_uint32 ((delay_mean : Int) - delay_var)
        delay_max := to_uint32 ((delay_mean : Int) + delay_var) }
  { c1 with
    remote := { c1.remote with port := to_uint16 (env.atoi (arg argv 2)) }
    data_len := to_uint32 (env.atoi (arg argv 3))
    num := to_uint32 (env.atoi (arg argv 4)) }

/-- The function `_source_cmd`, with `argc = argv.length`.  The thread created
has the higher priority and runs first: when its socket does not open it ends
at once, `_source_started` locked again, and the command, which then stores
the thread id in `_source_pid`, never gets the mutex; when the socket opens
the thread is waiting for its first wake-up while the command takes the mutex
and returns 0. -/
def _source_cmd (env : SourceEnv) (st : SourceState) (argv : List String) : CmdResult :=
  if st._source_pid > KERNEL_PID_UNDEF then
    { ret := some 1, state := st, out := ["command already running"], started := none }
  else if argv.length < 6 then
    { ret := some 1, state := st, out := [_source_usage (arg argv 0)], started := none }
  else
    let c := parse_config env st._source_config argv
    if c.remote.port = 0 ∨ c.data_len = 0 ∨ c.data_len > SOURCE_BUFSIZE / 2 * 2 ∨
        c.num = 0 ∨ c.delay_min = 0 ∨ c.delay_max = 0 then
      { ret := some 1, state := { st with _source_config := c },
        out := [_source_usage (arg argv 0)], started := none }
    else
      let p := env.ipv6_addr_from_str c.remote.addr (arg argv 1)
      let c2 : _source_config_t := { c with remote := { c.remote with addr := p.result } }
      if p.ok = false then
        { ret := some 1, state := { st with _source_config := c2 },
          out := [_source_usage (arg argv 0)], started := none }
      else
        let pid := env.thread_create
        if pid > KERNEL_PID_UNDEF then
          if env.sock_udp_create c2.remote < 0 then
            { ret := none, state := { st with _source_config := c2, _source_pid := pid },
              out := [], started := some c2 }
          else
            { ret := some 0, state := { st with _source_config := c2, _source_pid := pid },
              out := [], started := some c2 }
        else
          { ret := none, state := { st with _source_config := c2, _source_pid := pid },
            out := [], started := none }

/-! ## Sink (lines 36-62 of `apps/sink/main.c`) -/

/-- The call the sink makes into its environment to print an address. -/
structure SinkEnv where
  /-- The call `ipv6_addr_to_str(addr_str, addr, sizeof(addr_str))`. -/
  ipv6_addr_to_str : List Nat → String

/-- What one call of `sock_udp_recv(&sock, _sink_buf, sizeof(_sink_buf), SOCK_NO_TIMEOUT, &remote)`
does: it fails with a negative value, or stores the bytes of a datagram at the
start of `_sink_buf`, fills `remote` and returns the number of bytes. -/
inductive RecvOutcome where
  | error (errno : Nat)
  | datagram (data : List Nat) (remote : sock_udp_ep_t)
deriving DecidableEq

/-- The value `sock_udp_recv` returns. -/
def RecvOutcome.res : RecvOutcome → Int
  | .error errno => -(errno : Int)
  | .datagram data _ => (data.length : Int)

/-- The buffer `_sink_buf` after the call. -/
def RecvOutcome.store (buf : List network_uint16_t) : RecvOutcome → List network_uint16_t
  | .error _ => buf
  | .datagram data _ => words_of (data ++ (bytes_of buf).drop data.length)

/-- The sender `remote` after the call (unchanged on failure). -/
def RecvOutcome.sender (old : sock_udp_ep_t) : RecvOutcome → sock_udp_ep_t
  | .error _ => old
  | .datagram _ remote => remote

/-- The variables the receive loop keeps between passes and the lines printed. -/
structure SinkState where
  buf : List network_uint16_t
  out : List String
deriving DecidableEq

/-- One pass through the body of `while (1)` in `_sink_thread`. -/
def sink_step (env : SinkEnv) (st : SinkState) (r : RecvOutcome) : SinkState :=
  let buf := r.store st.buf
  let remote := r.sender { addr := [], port := 0 }
  if r.res ≥ 2 then
    { buf := buf
      out := st.out ++
        ["in;" ++ fmt_04x (byteorder_ntohs (buf.getD 0 { u8_0 := 0, u8_1 := 0 })) ++ ";" ++
          env.ipv6_addr_to_str remote.addr ++ ";" ++ fmt_u remote.port] }
  else { buf := buf, out := st.out }

/-- The receive loop over the first calls of `sock_udp_recv`, in order. -/
def sink_loop (env : SinkEnv) : SinkState → List RecvOutcome → SinkState
  | st, [] => st
  | st, r :: rs => sink_loop env (sink_step env st r) rs

/-- The function `_sink_thread` up to the listed calls of `sock_udp_recv`;
`create` is the value `sock_udp_create` returns. -/
def _sink_thread (env : SinkEnv) (create : Int) (rs : List RecvOutcome) : List String :=
  if create < 0 then ["Error creating UDP sock"]
  else
    (sink_loop env
      { buf := List.replicate (SINK_BUFSIZE / 2) { u8_0 := 0, u8_1 := 0 },
        out := ["Opened UDP sock on port " ++ fmt_u SINK_PORT] } rs).out

/-! ## Specification vocabulary -/

/-- The lowercase hexadecimal digit of a value below 16. -/
def hex_digit (d : Nat) : Char := "0123456789abcdef".toList.getD d '0'

/-- Four lowercase hexadecimal digits of a 16-bit value, most significant
first, leading zeros kept. -/
def hex4 (v : Nat) : String :=
  String.mk [hex_digit (v / 4096 % 16), hex_digit (v / 256 % 16),
    hex_digit (v / 16 % 16), hex_digit (v % 16)]

/-- What pass `k` of the send loop does, for the request `config`. -/
structure AttemptSpec (env : SourceEnv) (config : _source_config_t) (k : Nat) (a : Attempt) :
    Prop where
  i_eq : a.i = k
  id_eq : a.id = k % 2 ^ 16
  range_min_eq : a.range_min = config.delay_min
  range_max_eq : a.range_max = config.delay_max
  period_eq : a.period = env.random_uint32_range k config.delay_min config.delay_max
  res_eq : a.res = env.sock_udp_send k
  line_eq : a.line = send_line (k % 2 ^ 16) (env.sock_udp_send k)
  written_iff : ∀ j, j ∈ a.written ↔ j % 48 = 0 ∧ j < config.data_len / 2
  payload_length : a.payload.length = min config.data_len (2 * (SOURCE_BUFSIZE / 2))
  payload_head : 2 ≤ config.data_len →
    a.payload[0]? = some (k % 2 ^ 16 / 256) ∧ a.payload[1]? = some (k % 2 ^ 16 % 256)
  payload_one : config.data_len = 1 → a.payload = [0]

/-- The invariant of the send loop at its head. -/
structure LoopInv (env : SourceEnv) (config : _source_config_t) (pre : List String)
    (st : LoopState) : Prop where
  i_le : st.i ≤ config.num
  id_eq : st.id = st.i % 2 ^ 16
  buf_length : st.buf.length = SOURCE_BUFSIZE / 2
  buf_zero : config.data_len < 2 →
    st.buf = List.replicate (SOURCE_BUFSIZE / 2) { u8_0 := 0, u8_1 := 0 }
  sent_length : st.sent.length = st.i
  sent_spec : ∀ k, k < st.i → ∃ a, st.sent[k]? = some a ∧ AttemptSpec env config k a
  out_eq : st.out = pre ++ st.sent.map (fun a => a.line)

/-! ## Example environment -/

/-- A table standing in for `atoi` on the decimal strings of the examples. -/
def atoi_table (s : String) : Int :=
  if s = "6383" then 6383
  else if s = "64" then 64
  else if s = "3" then 3
  else if s = "10" then 10
  else if s = "20" then 20
  else if s = "1" then 1
  else if s = "2" then 2
  else if s = "3000000" then 3000000
  else if s = "4294968" then 4294968
  else 0

/-- The loopback address `::1`. -/
def loopback : List Nat := List.replicate 15 0 ++ [1]

/-- An environment in which `::1` parses, the thread and the socket are
created, every delay drawn is the lower bound and the second send fails with
`-101`. -/
def example_env : SourceEnv :=
  { atoi := atoi_table
    ipv6_addr_from_str := fun _ s =>
      if s = "::1" then { ok := true, result := loopback } else { ok := false, result := [] }
    thread_create := 3
    sock_udp_create := fun _ => 0
    random_uint32_range := fun _ a _ => a
    sock_udp_send := fun i => if i = 1 then -101 else 64 }

/-- The request of `source ::1 6383 64 3 10`. -/
def example_request : _source_config_t :=
  { remote := { addr := loopback, port := 6383 }, data_len := 64, num := 3,
    delay_min := 5000, delay_max := 15000 }

/-- The static state at program start: no run, `_source_config` and
`_source_buf` zero. -/
def idle_state : SourceState :=
  { _source_pid := KERNEL_PID_UNDEF
    _source_config :=
      { remote := { addr := List.replicate 16 0, port := 0 }, data_len := 0, num := 0,
        delay_min := 0, delay_max := 0 }
    _source_buf := List.replicate (SOURCE_BUFSIZE / 2) { u8_0 := 0, u8_1 := 0 }
    id := 0 }

/-- A state with a run in flight: thread 3, at sequence id 7. -/
def running_state : SourceState :=
  { _source_pid := 3
    _source_config :=
      { remote := { addr := loopback, port := 6383 }, data_len := 64, num := 100,
        delay_min := 5000, delay_max := 15000 }
    _source_buf :=
      (byteorder_htons 6) :: List.replicate (SOURCE_BUFSIZE / 2 - 1) { u8_0 := 0, u8_1 := 0 }
    id := 7 }

theorem digitChar_eq_hex_digit (d : Nat) (h : d < 16) : Nat.digitChar d = hex_digit d := by
  interval_cases d <;> rfl

theorem toDigitsCore_step (fuel n : Nat) (ds : List Char) :
    Nat.toDigitsCore 16 (fuel + 1) n ds =
      if n / 16 = 0 then Nat.digitChar (n % 16) :: ds
      else Nat.toDigitsCore 16 fuel (n / 16) (Nat.digitChar (n % 16) :: ds) := by
  simp [Nat.toDigitsCore]

theorem fmt_04x_eq_digits (v : Nat) (h : v < 65536) :
    fmt_04x v = String.mk [Nat.digitChar (v / 4096 % 16), Nat.digitChar (v / 256 % 16),
      Nat.digitChar (v / 16 % 16), Nat.digitChar (v % 16)] := by
  unfold fmt_04x Nat.toDigits
  rw [toDigitsCore_step]
  by_cases h1 : v / 16 = 0
  · have : v < 16 := by omega
    have e1 : v / 4096 % 16 = 0 := by omega
    have e2 : v / 256 % 16 = 0 := by omega
    have e3 : v / 16 % 16 = 0 := by omega
    simp [h1, e1, e2, e3]
    rfl
  · obtain ⟨f1, rfl⟩ : ∃ f, v = f + 1 := ⟨v - 1, by omega⟩
    rw [if_neg h1, toDigitsCore_step]
    by_cases h2 : (f1 + 1) / 16 / 16 = 0
    · have e1 : (f1 + 1) / 4096 % 16 = 0 := by omega
      have e2 : (f1 + 1) / 256 % 16 = 0 := by omega
      simp [h2, e1, e2]
      rfl
    · obtain ⟨f2, rfl⟩ : ∃ f, f1 = f + 1 := ⟨f1 - 1, by omega⟩
      rw [if_neg h2, toDigitsCore_step]
      by_cases h3 : (f2 + 1 + 1) / 16 / 16 / 16 = 0
      · have e1 : (f2 + 1 + 1) / 4096 % 16 = 0 := by omega
        have e2 : (f2 + 1 + 1) / 16 / 16 % 16 = (f2 + 1 + 1) / 256 % 16 := by omega
        simp [h3, e1, e2]
        rfl
      · obtain ⟨f3, rfl⟩ : ∃ f, f2 = f + 1 := ⟨f2 - 1, by omega⟩
        rw [if_neg h3, toDigitsCore_step]
        have h4 : (f3 + 1 + 1 + 1) / 16 / 16 / 16 / 16 = 0 := by omega
        have e1 : (f3 + 1 + 1 + 1) / 16 / 16 / 16 % 16 = (f3 + 1 + 1 + 1) / 4096 % 16 := by omega
        have e2 : (f3 + 1 + 1 + 1) / 16 / 16 % 16 = (f3 + 1 + 1 + 1) / 256 % 16 := by omega
        simp [h4, e1, e2]

/-- The conversion `%04x` of a 16-bit value is its four hexadecimal digits. -/
theorem fmt_04x_eq_hex4 (v : Nat) (h : v < 65536) : fmt_04x v = hex4 v := by
  rw [fmt_04x_eq_digits v h]
  unfold hex4
  rw [digitChar_eq_hex_digit _ (Nat.mod_lt _ (by norm_num)),
    digitChar_eq_hex_digit _ (Nat.mod_lt _ (by norm_num)),
    digitChar_eq_hex_digit _ (Nat.mod_lt _ (by norm_num)),
    digitChar_eq_hex_digit _ (Nat.mod_lt _ (by norm_num))]

/-! ## The stamping loop -/

/-- The stamping loop started at `j` with enough fuel: it ends, stores to the
indices `j`, `j + 48`, ... below `data_len / 2` and to no other, and leaves
the id in each word stored to. -/
theorem stamp_loop_spec (data_len id : Nat) (hlen : data_len / 2 + 48 ≤ 2 ^ 32) :
    ∀ (fuel j : Nat) (s : StampState), data_len / 2 ≤ j + 48 * fuel →
      ∃ s', stamp_loop data_len id (fuel + 1) j s = some s' ∧
        s'.buf.length = s.buf.length ∧
        (∀ k, k ∈ s'.written ↔
          k ∈ s.written ∨ (j ≤ k ∧ k < data_len / 2 ∧ (k - j) % 48 = 0)) ∧
        (∀ k, j ≤ k → k < data_len / 2 → (k - j) % 48 = 0 → k < s.buf.length →
          s'.buf[k]? = some (byteorder_htons id)) ∧
        (∀ k, ¬ (j ≤ k ∧ k < data_len / 2 ∧ (k - j) % 48 = 0) → s'.buf[k]? = s.buf[k]?) := by
  have stop : ∀ (fuel j : Nat) (s : StampState), ¬ j < data_len / 2 →
      ∃ s', stamp_loop data_len id (fuel + 1) j s = some s' ∧
        s'.buf.length = s.buf.length ∧
        (∀ k, k ∈ s'.written ↔
          k ∈ s.written ∨ (j ≤ k ∧ k < data_len / 2 ∧ (k - j) % 48 = 0)) ∧
        (∀ k, j ≤ k → k < data_len / 2 → (k - j) % 48 = 0 → k < s.buf.length →
          s'.buf[k]? = some (byteorder_htons id)) ∧
        (∀ k, ¬ (j ≤ k ∧ k < data_len / 2 ∧ (k - j) % 48 = 0) → s'.buf[k]? = s.buf[k]?) := by
    intro fuel j s hj
    refine ⟨s, ?_, rfl, ?_, ?_, fun k _ => rfl⟩
    · unfold stamp_loop; rw [if_neg hj]
    · intro k
      constructor
      · exact Or.inl
      · rintro (h1 | ⟨h1, h2, _⟩)
        · exact h1
        · exact absurd (Nat.lt_of_le_of_lt h1 h2) hj
    · intro k h1 h2 _ _
      exact absurd (Nat.lt_of_le_of_lt h1 h2) hj
  intro fuel
  induction fuel with
  | zero => intro j s h; exact stop 0 j s (by omega)
  | succ fuel ih =>
    intro j s h
    by_cases hj : j < data_len / 2
    · have hwrap : (j + SOURCE_BUF_OFFSET) % 2 ^ 32 = j + 48 := by
        unfold SOURCE_BUF_OFFSET
        exact Nat.mod_eq_of_lt (by omega)
      obtain ⟨s', hs', hl, hw, hv, hu⟩ :=
        ih (j + 48) { buf := s.buf.set j (byteorder_htons id), written := s.written ++ [j] }
          (by omega)
      refine ⟨s', ?_, ?_, ?_, ?_, ?_⟩
      · rw [stamp_loop, if_pos hj, hwrap]; exact hs'
      · simpa using hl
      · intro k
        rw [hw k]
        simp only [List.mem_append, List.mem_singleton]
        constructor
        · rintro ((h1 | h1) | ⟨h1, h2, h3⟩)
          · exact Or.inl h1
          · subst h1; exact Or.inr ⟨le_refl _, hj, by simp⟩
          · exact Or.inr ⟨by omega, h2, by omega⟩
        · rintro (h1 | ⟨h1, h2, h3⟩)
          · exact Or.inl (Or.inl h1)
          · by_cases hk : k = j
            · exact Or.inl (Or.inr hk)
            · exact Or.inr ⟨by omega, h2, by omega⟩
      · intro k h1 h2 h3 h4
        by_cases hk : k = j
        · subst hk
          rw [hu k (by omega)]
          simp [List.getElem?_set_self h4]
        · exact hv k (by omega) h2 (by omega) (by simpa using h4)
      · intro k hk
        rw [hu k (by omega)]
        have : j ≠ k := by
          intro e; subst e; exact hk ⟨le_refl _, hj, by simp⟩
        simp [List.getElem?_set_ne this]
    · exact stop (fuel + 1) j s hj

theorem bytes_of_length (b : List network_uint16_t) : (bytes_of b).length = 2 * b.length := by
  induction b with
  | nil => rfl
  | cons w ws ih => simp [bytes_of, ih]; omega

theorem bytes_of_head (w : network_uint16_t) (b : List network_uint16_t)
    (h : b[0]? = some w) (n : Nat) (hn : 2 ≤ n) :
    ((bytes_of b).take n)[0]? = some w.u8_0 ∧ ((bytes_of b).take n)[1]? = some w.u8_1 := by
  cases b with
  | nil => simp at h
  | cons v vs =>
    simp at h
    subst h
    obtain ⟨m, rfl⟩ : ∃ m, n = m + 2 := ⟨n - 2, by omega⟩
    simp [bytes_of]

/-- The send loop entered in a state that satisfies `LoopInv`, with enough
fuel: it ends with `i = num` in a state that satisfies `LoopInv`. -/
theorem send_loop_spec (env : SourceEnv) (config : _source_config_t) (F : Nat)
    (hnum : config.num < 2 ^ 32) (hF : config.data_len / 2 ≤ 48 * F)
    (hlen : config.data_len / 2 + 48 ≤ 2 ^ 32) (pre : List String) :
    ∀ (fuel : Nat) (st : LoopState), LoopInv env config pre st → config.num - st.i ≤ fuel →
      ∃ st', send_loop env config (F + 1) (fuel + 1) st = some st' ∧
        LoopInv env config pre st' ∧ st'.i = config.num := by
  intro fuel
  induction fuel with
  | zero =>
    intro st inv h
    have hi := inv.i_le
    refine ⟨st, ?_, inv, by omega⟩
    rw [send_loop, if_neg (by omega)]
  | succ fuel ih =>
    intro st inv h
    by_cases hi : st.i < config.num
    · obtain ⟨s, hs, hl, hw, hv, hu⟩ :=
        stamp_loop_spec config.data_len st.id hlen F 0 { buf := st.buf, written := [] }
          (by omega)
      have hi1 : (st.i + 1) % 2 ^ 32 = st.i + 1 := Nat.mod_eq_of_lt (by omega)
      have hbl : s.buf.length = SOURCE_BUFSIZE / 2 := by rw [hl]; exact inv.buf_length
      have hbz : config.data_len < 2 →
          s.buf = List.replicate (SOURCE_BUFSIZE / 2) { u8_0 := 0, u8_1 := 0 } := by
        intro h1
        rw [← inv.buf_zero h1]
        apply List.ext_getElem?
        intro k
        exact hu k (by omega)
      have hspec : AttemptSpec env config st.i
          { i := st.i, id := st.id, range_min := config.delay_min,
            range_max := config.delay_max,
            period := env.random_uint32_range st.i config.delay_min config.delay_max,
            written := s.written,
            payload := (bytes_of s.buf).take config.data_len,
            res := env.sock_udp_send st.i,
            line := send_line st.id (env.sock_udp_send st.i) } := by
        refine ⟨rfl, inv.id_eq, rfl, rfl, rfl, rfl, by rw [inv.id_eq], ?_, ?_, ?_, ?_⟩
        · intro j
          rw [hw j]
          simp
          omega
        · simp [bytes_of_length, hbl]
        · intro h2
          have h0 : s.buf[0]? = some (byteorder_htons st.id) :=
            hv 0 (le_refl _) (by omega) (by simp) (by
              have := inv.buf_length
              unfold SOURCE_BUFSIZE at this
              simp; omega)
          have := bytes_of_head _ _ h0 config.data_len h2
          rw [inv.id_eq] at this
          have hlt : st.i % 2 ^ 16 < 2 ^ 16 := Nat.mod_lt _ (by norm_num)
          have e : st.i % 2 ^ 16 / 256 % 256 = st.i % 2 ^ 16 / 256 := by omega
          simp only [byteorder_htons, e] at this
          exact this
        · intro h1
          show (bytes_of s.buf).take config.data_len = [0]
          rw [hbz (by omega), h1]
          rfl
      obtain ⟨st', hst', inv', hfin⟩ := ih
        { i := (st.i + 1) % 2 ^ 32
          id := (st.id + 1) % 2 ^ 16
          buf := s.buf
          out := st.out ++ [send_line st.id (env.sock_udp_send st.i)]
          sent := st.sent ++
            [{ i := st.i, id := st.id, range_min := config.delay_min,
               range_max := config.delay_max,
               period := env.random_uint32_range st.i config.delay_min config.delay_max,
               written := s.written,
               payload := (bytes_of s.buf).take config.data_len,
               res := env.sock_udp_send st.i,
               line := send_line st.id (env.sock_udp_send st.i) }] }
        { i_le := by simp only [hi1]; omega
          id_eq := by simp only [hi1, inv.id_eq]; omega
          buf_length := hbl
          buf_zero := hbz
          sent_length := by simp only [List.length_append, List.length_singleton, inv.sent_length, hi1]
          sent_spec := by
            intro k hk
            simp only [hi1] at hk
            by_cases hk2 : k < st.i
            · obtain ⟨a, ha, hsp⟩ := inv.sent_spec k hk2
              refine ⟨a, ?_, hsp⟩
              rw [List.getElem?_append_left (by rw [inv.sent_length]; exact hk2)]
              exact ha
            · have hk3 : k = st.i := by omega
              subst hk3
              refine ⟨_, ?_, hspec⟩
              have := List.getElem?_concat_length st.sent
                { i := st.i, id := st.id, range_min := config.delay_min,
                  range_max := config.delay_max,
                  period := env.random_uint32_range st.i config.delay_min config.delay_max,
                  written := s.written,
                  payload := (bytes_of s.buf).take config.data_len,
                  res := env.sock_udp_send st.i,
                  line := send_line st.id (env.sock_udp_send st.i) }
              rw [inv.sent_length] at this
              exact this
          out_eq := by simp [inv.out_eq] }
        (by simp only [hi1]; omega)
      refine ⟨st', ?_, inv', hfin⟩
      rw [send_loop, if_pos hi]
      simp only [hs]
      exact hst'
    · have hi2 := inv.i_le
      refine ⟨st, ?_, inv, by omega⟩
      rw [send_loop, if_neg hi]


/-! ## The command -/

theorem to_uint32_lt (x : Int) : to_uint32 x < 2 ^ 32 := by
  unfold to_uint32
  omega

theorem to_uint32_sub_half (m : Nat) (h : m < 2 ^ 32) :
    to_uint32 ((m : Int) - (m / 2 : Nat)) = m - m / 2 := by
  unfold to_uint32
  omega

theorem to_uint32_add_half (m : Nat) :
    to_uint32 ((m : Int) + (m / 2 : Nat)) = (m + m / 2) % 2 ^ 32 := by
  unfold to_uint32
  omega

/-- The delay bounds `parse_config` writes. -/
theorem parse_config_delays (env : SourceEnv) (c : _source_config_t) (argv : List String) :
    (argv.length ≤ 6 →
      (parse_config env c argv).delay_min =
          to_uint32 (env.atoi (arg argv 5) * 1000) - to_uint32 (env.atoi (arg argv 5) * 1000) / 2 ∧
        (parse_config env c argv).delay_max =
          (to_uint32 (env.atoi (arg argv 5) * 1000) +
            to_uint32 (env.atoi (arg argv 5) * 1000) / 2) % 2 ^ 32) ∧
    (6 < argv.length →
      (parse_config env c argv).delay_min = to_uint32 (env.atoi (arg argv 5) * 1000) ∧
        (parse_config env c argv).delay_max = to_uint32 (env.atoi (arg argv 6) * 1000)) := by
  constructor
  · intro h
    have hn : ¬ argv.length > 6 := by omega
    simp only [parse_config, hn, if_false, US_PER_MS]
    exact ⟨to_uint32_sub_half _ (to_uint32_lt _), to_uint32_add_half _⟩
  · intro h
    have hn : argv.length > 6 := h
    simp only [parse_config, hn, if_true, US_PER_MS]
    exact ⟨trivial, trivial⟩

/-- The other fields `parse_config` writes, and the address it leaves. -/
theorem parse_config_fields (env : SourceEnv) (c : _source_config_t) (argv : List String) :
    (parse_config env c argv).remote.port = to_uint16 (env.atoi (arg argv 2)) ∧
      (parse_config env c argv).remote.addr = c.remote.addr ∧
      (parse_config env c argv).data_len = to_uint32 (env.atoi (arg argv 3)) ∧
      (parse_config env c argv).num = to_uint32 (env.atoi (arg argv 4)) := by
  unfold parse_config
  split <;> exact ⟨rfl, rfl, rfl, rfl⟩

/-- What holds whenever `_source_cmd` starts a thread. -/
theorem _source_cmd_started (env : SourceEnv) (st : SourceState) (argv : List String)
    (c : _source_config_t) (h : (_source_cmd env st argv).started = some c) :
    ¬ st._source_pid > KERNEL_PID_UNDEF ∧ 6 ≤ argv.length ∧
      ((_source_cmd env st argv).ret = some 0 ↔ ¬ env.sock_udp_create c.remote < 0) ∧
      (parse_config env st._source_config argv).remote.port ≠ 0 ∧
      (parse_config env st._source_config argv).data_len ≠ 0 ∧
      (parse_config env st._source_config argv).data_len ≤ SOURCE_BUFSIZE ∧
      (parse_config env st._source_config argv).num ≠ 0 ∧
      (parse_config env st._source_config argv).delay_min ≠ 0 ∧
      (parse_config env st._source_config argv).delay_max ≠ 0 ∧
      (env.ipv6_addr_from_str (parse_config env st._source_config argv).remote.addr
        (arg argv 1)).ok = true ∧
      env.thread_create > KERNEL_PID_UNDEF ∧
      c = { parse_config env st._source_config argv with
            remote := { (parse_config env st._source_config argv).remote with
              addr := (env.ipv6_addr_from_str
                (parse_config env st._source_config argv).remote.addr (arg argv 1)).result } } := by
  unfold _source_cmd at h ⊢
  by_cases h1 : st._source_pid > KERNEL_PID_UNDEF
  · simp [h1] at h
  · by_cases h2 : argv.length < 6
    · simp [h1, h2] at h
    · by_cases h3 : (parse_config env st._source_config argv).remote.port = 0 ∨
          (parse_config env st._source_config argv).data_len = 0 ∨
          (parse_config env st._source_config argv).data_len > SOURCE_BUFSIZE / 2 * 2 ∨
          (parse_config env st._source_config argv).num = 0 ∨
          (parse_config env st._source_config argv).delay_min = 0 ∨
          (parse_config env st._source_config argv).delay_max = 0
      · simp [h1, h2, h3] at h
      · by_cases h4 : (env.ipv6_addr_from_str (parse_config env st._source_config argv).remote.addr
            (arg argv 1)).ok = false
        · simp [h1, h2, h3, h4] at h
        · by_cases h5 : env.thread_create > KERNEL_PID_UNDEF
          · have hok : (env.ipv6_addr_from_str (parse_config env st._source_config argv).remote.addr
                (arg argv 1)).ok = true := by simpa using h4
            simp only [not_or] at h3
            obtain ⟨p1, p2, p3, p4, p5, p6⟩ := h3
            have hle : (parse_config env st._source_config argv).data_len ≤ SOURCE_BUFSIZE := by
              unfold SOURCE_BUFSIZE at p3 ⊢
              omega
            by_cases h6 : env.sock_udp_create
                { (parse_config env st._source_config argv).remote with
                  addr := (env.ipv6_addr_from_str
                    (parse_config env st._source_config argv).remote.addr
                    (arg argv 1)).result } < 0
            · simp [h1, h2, p1, p2, p3, p4, p5, p6, hok, h5, h6] at h ⊢
              subst h
              exact ⟨by omega, h6, hle, rfl⟩
            · simp [h1, h2, p1, p2, p3, p4, p5, p6, hok, h5, h6] at h ⊢
              subst h
              exact ⟨by omega, by simpa using h6, hle, rfl⟩
          · simp [h1, h2, h3, h4, h5] at h

/-- The state `_source_cmd` leaves when it gets past the argument count: the
run marker aside, only `_source_config` changes, and its numeric fields are
the ones `parse_config` wrote. -/
theorem _source_cmd_state (env : SourceEnv) (st : SourceState) (argv : List String)
    (h1 : ¬ st._source_pid > KERNEL_PID_UNDEF) (h2 : 6 ≤ argv.length) :
    (_source_cmd env st argv).state._source_buf = st._source_buf ∧
      (_source_cmd env st argv).state.id = st.id ∧
      (_source_cmd env st argv).state._source_config.delay_min =
        (parse_config env st._source_config argv).delay_min ∧
      (_source_cmd env st argv).state._source_config.delay_max =
        (parse_config env st._source_config argv).delay_max ∧
      (_source_cmd env st argv).state._source_config.remote.port =
        (parse_config env st._source_config argv).remote.port ∧
      (_source_cmd env st argv).state._source_config.data_len =
        (parse_config env st._source_config argv).data_len ∧
      (_source_cmd env st argv).state._source_config.num =
        (parse_config env st._source_config argv).num := by
  have h2 : ¬ argv.length < 6 := by omega
  unfold _source_cmd
  simp only [h1, h2, if_false]
  split_ifs <;> exact ⟨rfl, rfl, rfl, rfl, rfl, rfl, rfl⟩

/-- A call that does not start a thread although no run is active and the
arguments are there: it returns 1, prints the usage line and leaves the run
marker alone. -/
theorem _source_cmd_rejected (env : SourceEnv) (st : SourceState) (argv : List String)
    (h1 : ¬ st._source_pid > KERNEL_PID_UNDEF)
    (h : argv.length < 6 ∨
      (parse_config env st._source_config argv).remote.port = 0 ∨
      (parse_config env st._source_config argv).data_len = 0 ∨
      (parse_config env st._source_config argv).data_len > SOURCE_BUFSIZE ∨
      (parse_config env st._source_config argv).num = 0 ∨
      (parse_config env st._source_config argv).delay_min = 0 ∨
      (parse_config env st._source_config argv).delay_max = 0 ∨
      (env.ipv6_addr_from_str (parse_config env st._source_config argv).remote.addr
        (arg argv 1)).ok = false) :
    (_source_cmd env st argv).ret = some 1 ∧
      (_source_cmd env st argv).started = none ∧
      (_source_cmd env st argv).out = [_source_usage (arg argv 0)] ∧
      (_source_cmd env st argv).state._source_pid = st._source_pid ∧
      (argv.length < 6 → (_source_cmd env st argv).state = st) := by
  unfold _source_cmd
  by_cases h2 : argv.length < 6
  · simp [h1, h2]
  · have hsz : SOURCE_BUFSIZE / 2 * 2 = SOURCE_BUFSIZE := by decide
    by_cases h3 : (parse_config env st._source_config argv).remote.port = 0 ∨
          (parse_config env st._source_config argv).data_len = 0 ∨
          (parse_config env st._source_config argv).data_len > SOURCE_BUFSIZE / 2 * 2 ∨
          (parse_config env st._source_config argv).num = 0 ∨
          (parse_config env st._source_config argv).delay_min = 0 ∨
          (parse_config env st._source_config argv).delay_max = 0
    · simp [h1, h2, h3]
    · have h4 : (env.ipv6_addr_from_str (parse_config env st._source_config argv).remote.addr
            (arg argv 1)).ok = false := by
        rw [hsz] at h3
        rcases h with h | h | h | h | h | h | h | h
        · exact absurd h h2
        · exact absurd (Or.inl h) h3
        · exact absurd (Or.inr (Or.inl h)) h3
        · exact absurd (Or.inr (Or.inr (Or.inl h))) h3
        · exact absurd (Or.inr (Or.inr (Or.inr (Or.inl h)))) h3
        · exact absurd (Or.inr (Or.inr (Or.inr (Or.inr (Or.inl h))))) h3
        · exact absurd (Or.inr (Or.inr (Or.inr (Or.inr (Or.inr h))))) h3
        · exact h
      simp [h1, h2, h3, h4]

/-- C5: a call of `_source_cmd` made while the run marker `_source_pid` is set
returns 1 whatever the arguments, prints "command already running", starts no
thread and leaves the whole static state as it was: run marker, stored
request, buffer and the sequence counter of the running thread. -/
theorem already_running_rejected (env : SourceEnv) (st : SourceState) (argv : List String)
    (h : st._source_pid > KERNEL_PID_UNDEF) :
    (_source_cmd env st argv).ret = some 1 ∧
      (_source_cmd env st argv).started = none ∧
      (_source_cmd env st argv).out = ["command already running"] ∧
      (_source_cmd env st argv).state = st := by
  unfold _source_cmd
  rw [if_pos h]
  exact ⟨rfl, rfl, rfl, rfl⟩

theorem already_running_rejected_witness :
    running_state._source_pid > KERNEL_PID_UNDEF ∧
      (_source_cmd example_env running_state ["source", "::1", "6383", "64", "3", "10"]).ret
        = some 1 ∧
      (_source_cmd example_env running_state ["source", "::1", "6383", "64", "3", "10"]).state
        = running_state :=
  ⟨by decide,
    (already_running_rejected example_env running_state
      ["source", "::1", "6383", "64", "3", "10"] (by decide)).1,
    (already_running_rejected example_env running_state
      ["source", "::1", "6383", "64", "3", "10"] (by decide)).2.2.2⟩

/-- C8: the delay bounds `_source_cmd` computes, in 32-bit unsigned
arithmetic.  With 5 arguments, for `mean_us = delay_mean_ms * 1000`, the
bounds are `mean_us - mean_us / 2` and `mean_us + mean_us / 2`; with 6
arguments they are the fifth and the sixth argument times 1000.  The values
are stored in `_source_config` and are the ones a started thread receives. -/
theorem delay_bounds_computed (env : SourceEnv) (st : SourceState) (argv : List String)
    (hidle : ¬ st._source_pid > KERNEL_PID_UNDEF) (hargc : 6 ≤ argv.length) :
    (argv.length = 6 →
      (_source_cmd env st argv).state._source_config.delay_min =
          to_uint32 (env.atoi (arg argv 5) * 1000) - to_uint32 (env.atoi (arg argv 5) * 1000) / 2 ∧
        (_source_cmd env st argv).state._source_config.delay_max =
          (to_uint32 (env.atoi (arg argv 5) * 1000) +
            to_uint32 (env.atoi (arg argv 5) * 1000) / 2) % 2 ^ 32) ∧
    (argv.length = 7 →
      (_source_cmd env st argv).state._source_config.delay_min =
          to_uint32 (env.atoi (arg argv 5) * 1000) ∧
        (_source_cmd env st argv).state._source_config.delay_max =
          to_uint32 (env.atoi (arg argv 6) * 1000)) ∧
    (∀ c, (_source_cmd env st argv).started = some c →
      c.delay_min = (_source_cmd env st argv).state._source_config.delay_min ∧
        c.delay_max = (_source_cmd env st argv).state._source_config.delay_max) := by
  obtain ⟨_, _, hmin, hmax, _⟩ := _source_cmd_state env st argv hidle hargc
  obtain ⟨h5, h6⟩ := parse_config_delays env st._source_config argv
  refine ⟨fun h => ?_, fun h => ?_, fun c hc => ?_⟩
  · rw [hmin, hmax]; exact h5 (by omega)
  · rw [hmin, hmax]; exact h6 (by omega)
  · obtain ⟨_, _, _, _, _, _, _, _, _, _, _, hc'⟩ := _source_cmd_started env st argv c hc
    rw [hmin, hmax, hc']
    exact ⟨rfl, rfl⟩

theorem delay_bounds_computed_witness :
    ((_source_cmd example_env idle_state
        ["source", "::1", "6383", "64", "3", "10"]).state._source_config.delay_min = 5000 ∧
      (_source_cmd example_env idle_state
        ["source", "::1", "6383", "64", "3", "10"]).state._source_config.delay_max = 15000) ∧
    ((_source_cmd example_env idle_state
        ["source", "::1", "6383", "64", "3", "20", "10"]).state._source_config.delay_min
          = 20000 ∧
      (_source_cmd example_env idle_state
        ["source", "::1", "6383", "64", "3", "20", "10"]).state._source_config.delay_max
          = 10000) :=
  ⟨(delay_bounds_computed example_env idle_state ["source", "::1", "6383", "64", "3", "10"]
      (by decide) (by decide)).1 rfl,
    (delay_bounds_computed example_env idle_state
      ["source", "::1", "6383", "64", "3", "20", "10"] (by decide) (by decide)).2.1 rfl⟩

/-- C4, as the claim states it, fails: with the delay bounds given as 20 then
10 the call returns 0 and starts a thread whose request has
`delay_min = 20000 > delay_max = 10000`.  The order is lost as well when a
product wraps modulo `2^32`: bounds 1 then 4294968 give `1000 > 704`, and the
mean 3000000 gives `1500000000 > 205032704`. -/
theorem accepted_bounds_unordered :
    (∃ c, (_source_cmd example_env idle_state
          ["source", "::1", "6383", "64", "3", "20", "10"]).ret = some 0 ∧
      (_source_cmd example_env idle_state
          ["source", "::1", "6383", "64", "3", "20", "10"]).started = some c ∧
      c.delay_min = 20000 ∧ c.delay_max = 10000 ∧ ¬ c.delay_min ≤ c.delay_max) ∧
    (∃ c, (_source_cmd example_env idle_state
          ["source", "::1", "6383", "64", "3", "1", "4294968"]).ret = some 0 ∧
      (_source_cmd example_env idle_state
          ["source", "::1", "6383", "64", "3", "1", "4294968"]).started = some c ∧
      c.delay_min = 1000 ∧ c.delay_max = 704 ∧ ¬ c.delay_min ≤ c.delay_max) ∧
    (∃ c, (_source_cmd example_env idle_state
          ["source", "::1", "6383", "64", "3", "3000000"]).ret = some 0 ∧
      (_source_cmd example_env idle_state
          ["source", "::1", "6383", "64", "3", "3000000"]).started = some c ∧
      c.delay_min = 1500000000 ∧ c.delay_max = 205032704 ∧ ¬ c.delay_min ≤ c.delay_max) :=
  ⟨⟨{ remote := { addr := loopback, port := 6383 }, data_len := 64, num := 3,
      delay_min := 20000, delay_max := 10000 }, by decide, by decide, rfl, rfl, by decide⟩,
    ⟨{ remote := { addr := loopback, port := 6383 }, data_len := 64, num := 3,
       delay_min := 1000, delay_max := 704 }, by decide, by decide, rfl, rfl, by decide⟩,
    ⟨{ remote := { addr := loopback, port := 6383 }, data_len := 64, num := 3,
       delay_min := 1500000000, delay_max := 205032704 }, by decide, by decide, rfl, rfl,
      by decide⟩⟩

/-- C4 (amended): whenever `_source_cmd` returns 0 and starts a thread, the
request handed over has a non-zero port, `1 ≤ data_len ≤ SOURCE_BUFSIZE`,
`num > 0`, both delay bounds `> 0` and the address `ipv6_addr_from_str`
parsed, in the 5-argument and in the 6-argument form.  The order of the two
bounds is not among the checks: `delay_min ≤ delay_max` holds in the
5-argument form when `mean_us + mean_us / 2 < 2^32`, and in the 6-argument
form when `0 ≤ delay_min_ms ≤ delay_max_ms` and `delay_max_ms * 1000 < 2^32`. -/
theorem accepted_request_valid (env : SourceEnv) (st : SourceState) (argv : List String)
    (c : _source_config_t)
    (hret : (_source_cmd env st argv).ret = some 0)
    (hstarted : (_source_cmd env st argv).started = some c) :
    c.remote.port ≠ 0 ∧ 1 ≤ c.data_len ∧ c.data_len ≤ SOURCE_BUFSIZE ∧ 0 < c.num ∧
      0 < c.delay_min ∧ 0 < c.delay_max ∧
      (env.ipv6_addr_from_str st._source_config.remote.addr (arg argv 1)).ok = true ∧
      c.remote.addr =
        (env.ipv6_addr_from_str st._source_config.remote.addr (arg argv 1)).result ∧
      (argv.length = 6 →
        to_uint32 (env.atoi (arg argv 5) * 1000) + to_uint32 (env.atoi (arg argv 5) * 1000) / 2
            < 2 ^ 32 →
        c.delay_min ≤ c.delay_max) ∧
      (argv.length = 7 →
        0 ≤ env.atoi (arg argv 5) → env.atoi (arg argv 5) ≤ env.atoi (arg argv 6) →
        env.atoi (arg argv 6) * 1000 < 2 ^ 32 →
        c.delay_min ≤ c.delay_max) := by
  have _ := hret
  obtain ⟨_, hargc, _, p1, p2, p3, p4, p5, p6, p7, _, hc⟩ :=
    _source_cmd_started env st argv c hstarted
  obtain ⟨h5, h6⟩ := parse_config_delays env st._source_config argv
  obtain ⟨_, haddr, _, _⟩ := parse_config_fields env st._source_config argv
  rw [haddr] at p7 hc
  subst hc
  refine ⟨p1, Nat.pos_of_ne_zero p2, p3, Nat.pos_of_ne_zero p4, Nat.pos_of_ne_zero p5,
    Nat.pos_of_ne_zero p6, p7, rfl, ?_, ?_⟩
  · intro h hfit
    obtain ⟨e1, e2⟩ := h5 (by omega)
    show (parse_config env st._source_config argv).delay_min ≤
      (parse_config env st._source_config argv).delay_max
    rw [e1, e2, Nat.mod_eq_of_lt hfit]
    omega
  · intro h hmin hle hmax
    obtain ⟨e1, e2⟩ := h6 (by omega)
    show (parse_config env st._source_config argv).delay_min ≤
        (parse_config env st._source_config argv).delay_max
    rw [e1, e2]
    unfold to_uint32
    have hb : env.atoi (arg argv 6) * 1000 % 2 ^ 32 = env.atoi (arg argv 6) * 1000 :=
      Int.emod_eq_of_lt (by omega) hmax
    have ha : env.atoi (arg argv 5) * 1000 % 2 ^ 32 = env.atoi (arg argv 5) * 1000 :=
      Int.emod_eq_of_lt (by omega) (by omega)
    rw [ha, hb]
    omega

theorem accepted_request_valid_witness :
    ((6383 : Nat) ≠ 0 ∧ 1 ≤ 64 ∧ 64 ≤ SOURCE_BUFSIZE ∧ 0 < 3 ∧ 0 < 5000 ∧ 0 < 15000 ∧
      example_request.delay_min ≤ example_request.delay_max) ∧
    (10000 : Nat) ≤ 20000 :=
  have h := accepted_request_valid example_env idle_state
    ["source", "::1", "6383", "64", "3", "10"] example_request (by decide) (by decide)
  have h7 := accepted_request_valid example_env idle_state
    ["source", "::1", "6383", "64", "3", "10", "20"]
    { remote := { addr := loopback, port := 6383 }, data_len := 64, num := 3,
      delay_min := 10000, delay_max := 20000 } (by decide) (by decide)
  ⟨⟨h.1, h.2.1, h.2.2.1, h.2.2.2.1, h.2.2.2.2.1, h.2.2.2.2.2.1,
      h.2.2.2.2.2.2.2.2.1 rfl (by decide)⟩,
    h7.2.2.2.2.2.2.2.2.2 rfl (by decide) (by decide) (by decide)⟩

/-- C6, as the claim states it, fails: a call with port 0 made while no run
is active returns 1 and starts nothing, but `_source_config` is no longer
what it was: its delay bounds, `data_len` and `num` hold the parsed values. -/
theorem rejected_call_writes_config :
    (_source_cmd example_env idle_state ["source", "::1", "0", "64", "3", "10"]).ret = some 1 ∧
      (_source_cmd example_env idle_state ["source", "::1", "0", "64", "3", "10"]).started
        = none ∧
      (_source_cmd example_env idle_state
          ["source", "::1", "0", "64", "3", "10"]).state._source_config =
        { remote := { addr := List.replicate 16 0, port := 0 }, data_len := 64, num := 3,
          delay_min := 5000, delay_max := 15000 } ∧
      (_source_cmd example_env idle_state
          ["source", "::1", "0", "64", "3", "10"]).state._source_config ≠
        idle_state._source_config :=
  ⟨by decide, by decide, by decide, by decide⟩

/-- C6 (amended): a call whose arguments fail validation (too few, zero port,
zero or oversized `data_len`, zero `num`, a zero delay bound, an address that
does not parse), made while no run is active, returns 1, prints the usage
line, starts no thread and leaves the run marker, the buffer and the sequence
counter as they were.  With too few arguments the whole state is unchanged;
otherwise `_source_config` holds the delay bounds, port, `data_len` and `num`
parsed from the arguments. -/
theorem invalid_request_rejected (env : SourceEnv) (st : SourceState) (argv : List String)
    (hidle : ¬ st._source_pid > KERNEL_PID_UNDEF)
    (hbad : argv.length < 6 ∨
      (parse_config env st._source_config argv).remote.port = 0 ∨
      (parse_config env st._source_config argv).data_len = 0 ∨
      (parse_config env st._source_config argv).data_len > SOURCE_BUFSIZE ∨
      (parse_config env st._source_config argv).num = 0 ∨
      (parse_config env st._source_config argv).delay_min = 0 ∨
      (parse_config env st._source_config argv).delay_max = 0 ∨
      (env.ipv6_addr_from_str (parse_config env st._source_config argv).remote.addr
        (arg argv 1)).ok = false) :
    (_source_cmd env st argv).ret = some 1 ∧
      (_source_cmd env st argv).started = none ∧
      (_source_cmd env st argv).out = [_source_usage (arg argv 0)] ∧
      (_source_cmd env st argv).state._source_pid = st._source_pid ∧
      (_source_cmd env st argv).state._source_buf = st._source_buf ∧
      (_source_cmd env st argv).state.id = st.id ∧
      (argv.length < 6 → (_source_cmd env st argv).state = st) ∧
      (6 ≤ argv.length →
        (_source_cmd env st argv).state._source_config.delay_min =
            (parse_config env st._source_config argv).delay_min ∧
          (_source_cmd env st argv).state._source_config.delay_max =
            (parse_config env st._source_config argv).delay_max ∧
          (_source_cmd env st argv).state._source_config.remote.port =
            to_uint16 (env.atoi (arg argv 2)) ∧
          (_source_cmd env st argv).state._source_config.data_len =
            to_uint32 (env.atoi (arg argv 3)) ∧
          (_source_cmd env st argv).state._source_config.num =
            to_uint32 (env.atoi (arg argv 4))) := by
  obtain ⟨r1, r2, r3, r4, r5⟩ := _source_cmd_rejected env st argv hidle hbad
  obtain ⟨f1, _, f3, f4⟩ := parse_config_fields env st._source_config argv
  refine ⟨r1, r2, r3, r4, ?_, ?_, r5, ?_⟩
  · by_cases h : argv.length < 6
    · rw [r5 h]
    · exact (_source_cmd_state env st argv hidle (by omega)).1
  · by_cases h : argv.length < 6
    · rw [r5 h]
    · exact (_source_cmd_state env st argv hidle (by omega)).2.1
  · intro h
    obtain ⟨_, _, s3, s4, s5, s6, s7⟩ := _source_cmd_state env st argv hidle h
    exact ⟨s3, s4, s5.trans f1, s6.trans f3, s7.trans f4⟩

theorem invalid_request_rejected_witness :
    (_source_cmd example_env idle_state ["source", "::1", "0", "64", "3", "10"]).ret = some 1 ∧
      (_source_cmd example_env idle_state ["source", "::1", "0", "64", "3", "10"]).started
        = none ∧
      (_source_cmd example_env idle_state
          ["source", "::1", "0", "64", "3", "10"]).state._source_pid = KERNEL_PID_UNDEF ∧
      (_source_cmd example_env idle_state
          ["source", "::1", "0", "64", "3", "10"]).state._source_config.delay_min = 5000 :=
  have h := invalid_request_rejected example_env idle_state
    ["source", "::1", "0", "64", "3", "10"] (by decide) (Or.inr (Or.inl (by decide)))
  ⟨h.1, h.2.1, h.2.2.2.1, (h.2.2.2.2.2.2.2 (by decide)).1⟩

/-! ## The thread -/

/-- A run of `_source_thread` whose socket opens: it ends, having made one
pass per datagram asked for, each as `AttemptSpec` says. -/
theorem _source_thread_spec (env : SourceEnv) (config : _source_config_t) (fuel : Nat)
    (hnum : config.num < 2 ^ 32) (hlen : config.data_len ≤ SOURCE_BUFSIZE)
    (hsock : ¬ env.sock_udp_create config.remote < 0)
    (hfuel : config.num < fuel) (hfuel2 : 14 ≤ fuel) :
    ∃ r, _source_thread env config fuel = some r ∧
      r.sent.length = config.num ∧
      r.out = start_lines config ++ r.sent.map (fun a => a.line) ∧
      (∀ k, k < config.num → ∃ a, r.sent[k]? = some a ∧ AttemptSpec env config k a) ∧
      r.buf.length = SOURCE_BUFSIZE / 2 ∧ r._source_pid = KERNEL_PID_UNDEF ∧
      r.closed = true := by
  obtain ⟨F, rfl⟩ : ∃ F, fuel = F + 1 := ⟨fuel - 1, by omega⟩
  have hlen2 : config.data_len ≤ 1232 := hlen
  obtain ⟨st, hst, inv, hi⟩ := send_loop_spec env config F hnum (by omega) (by omega)
    (start_lines config) F
    { i := 0, id := 0,
      buf := List.replicate (SOURCE_BUFSIZE / 2) { u8_0 := 0, u8_1 := 0 },
      out := start_lines config, sent := [] }
    { i_le := Nat.zero_le _
      id_eq := rfl
      buf_length := by simp
      buf_zero := fun _ => rfl
      sent_length := rfl
      sent_spec := fun k hk => absurd hk (Nat.not_lt_zero k)
      out_eq := by simp }
    (by simp only; omega)
  refine ⟨{ out := st.out, sent := st.sent, buf := st.buf,
            _source_pid := KERNEL_PID_UNDEF, closed := true }, ?_, ?_, inv.out_eq, ?_,
    inv.buf_length, rfl, rfl⟩
  · unfold _source_thread
    simp only [hsock, if_false, hst]
  · show st.sent.length = config.num
    rw [inv.sent_length, hi]
  · intro k hk
    exact inv.sent_spec k (by omega)

/-- The request of a started thread fits the machine types and the buffer. -/
theorem started_bounds (env : SourceEnv) (st : SourceState) (argv : List String)
    (c : _source_config_t) (h : (_source_cmd env st argv).started = some c) :
    c.num < 2 ^ 32 ∧ c.data_len ≤ SOURCE_BUFSIZE := by
  obtain ⟨_, _, _, _, _, p3, _, _, _, _, _, hc⟩ := _source_cmd_started env st argv c h
  obtain ⟨_, _, _, f4⟩ := parse_config_fields env st._source_config argv
  subst hc
  exact ⟨by show (parse_config env st._source_config argv).num < 2 ^ 32
            rw [f4]; exact to_uint32_lt _, p3⟩

theorem send_line_err (id : Nat) (res : Int) (hid : id < 2 ^ 16) (h1 : res < 0)
    (h2 : -(2 : Int) ^ 31 < res) :
    send_line id res = "err;" ++ hex4 id ++ ";" ++ Nat.repr (-res).toNat := by
  have e : to_int32 (-res) = -res := by
    unfold to_int32
    omega
  have hn : ¬ (-res < 0) := by omega
  unfold send_line fmt_d
  rw [if_pos h1, e, if_neg hn, fmt_04x_eq_hex4 id hid]

theorem send_line_out (id : Nat) (res : Int) (hid : id < 2 ^ 16) (h1 : ¬ res < 0) :
    send_line id res = "out;" ++ hex4 id := by
  unfold send_line
  rw [if_neg h1, fmt_04x_eq_hex4 id hid]

/-- C1, as the claim states it, fails: `source ::1 6383 1 2 10` is accepted
with `data_len = 1`; the stamping loop then stores nothing, and both passes
send the single byte 0, so the second datagram does not carry its id 1. -/
theorem one_byte_payload_without_id :
    ∃ c r, (_source_cmd example_env idle_state
          ["source", "::1", "6383", "1", "2", "10"]).ret = some 0 ∧
      (_source_cmd example_env idle_state
          ["source", "::1", "6383", "1", "2", "10"]).started = some c ∧
      c.data_len = 1 ∧
      _source_thread example_env c 20 = some r ∧
      r.sent.map (fun a => (a.id, a.written, a.payload)) = [(0, [], [0]), (1, [], [0])] ∧
      r.out.drop 4 = ["out;0000", "err;0001;101"] :=
  ⟨{ remote := { addr := loopback, port := 6383 }, data_len := 1, num := 2,
     delay_min := 5000, delay_max := 15000 },
   (_source_thread example_env
      { remote := { addr := loopback, port := 6383 }, data_len := 1, num := 2,
        delay_min := 5000, delay_max := 15000 } 20).getD
      { out := [], sent := [], buf := [], _source_pid := 0, closed := false },
   by decide, by decide, rfl, by rfl, by rfl, by rfl⟩

/-- C1 (amended): for every request `_source_cmd` accepts and every sequence
of send outcomes, a run of `_source_thread` whose socket opens ends after
exactly `num` passes of the send loop.  Pass `k` has and logs the id
`k mod 2^16`: its line is `out;<id>` or `err;<id>;<code>` with the id as four
hex digits.  The datagram of pass `k` carries that id, high byte first, in
its first two bytes when `data_len` is 2 or more; with `data_len = 1` it is
the single byte 0.  The ids start at 0 and each is the previous one plus 1
modulo `2^16`, whatever `num` is. -/
theorem send_loop_ids (env : SourceEnv) (st : SourceState) (argv : List String)
    (c : _source_config_t) (fuel : Nat)
    (hacc : (_source_cmd env st argv).started = some c)
    (hsock : ¬ env.sock_udp_create c.remote < 0)
    (hfuel : c.num < fuel) (hfuel2 : 14 ≤ fuel) :
    ∃ r, _source_thread env c fuel = some r ∧
      r.sent.length = c.num ∧
      r.out = start_lines c ++ r.sent.map (fun a => a.line) ∧
      (∀ k, k < c.num → ∃ a, r.sent[k]? = some a ∧ a.i = k ∧ a.id = k % 2 ^ 16 ∧
        a.res = env.sock_udp_send k ∧
        a.line = (if a.res < 0 then "err;" ++ hex4 (k % 2 ^ 16) ++ ";" ++ fmt_d (to_int32 (-a.res))
          else "out;" ++ hex4 (k % 2 ^ 16)) ∧
        (2 ≤ c.data_len →
          a.payload[0]? = some (k % 2 ^ 16 / 256) ∧ a.payload[1]? = some (k % 2 ^ 16 % 256)) ∧
        (c.data_len = 1 → a.payload = [0])) ∧
      (0 < c.num → ∃ a, r.sent[0]? = some a ∧ a.id = 0) ∧
      (∀ k, k + 1 < c.num → ∃ a b, r.sent[k]? = some a ∧ r.sent[k + 1]? = some b ∧
        b.id = (a.id + 1) % 2 ^ 16) := by
  obtain ⟨hnum, hlen⟩ := started_bounds env st argv c hacc
  obtain ⟨r, hr, hlenr, hout, hspec, _⟩ :=
    _source_thread_spec env c fuel hnum hlen hsock hfuel hfuel2
  refine ⟨r, hr, hlenr, hout, ?_, ?_, ?_⟩
  · intro k hk
    obtain ⟨a, ha, sp⟩ := hspec k hk
    have hid : k % 2 ^ 16 < 65536 := Nat.mod_lt _ (by norm_num)
    refine ⟨a, ha, sp.i_eq, sp.id_eq, sp.res_eq, ?_, sp.payload_head, sp.payload_one⟩
    rw [sp.line_eq, sp.res_eq]
    unfold send_line
    rw [fmt_04x_eq_hex4 _ hid]
  · intro h0
    obtain ⟨a, ha, sp⟩ := hspec 0 h0
    exact ⟨a, ha, sp.id_eq⟩
  · intro k hk
    obtain ⟨a, ha, spa⟩ := hspec k (by omega)
    obtain ⟨b, hb, spb⟩ := hspec (k + 1) hk
    refine ⟨a, b, ha, hb, ?_⟩
    rw [spa.id_eq, spb.id_eq]
    omega

theorem send_loop_ids_witness :
    (∃ r a, _source_thread example_env example_request 20 = some r ∧ r.sent.length = 3 ∧
      r.sent[2]? = some a ∧ a.id = 2 ∧ a.line = "out;0002" ∧
      a.payload[0]? = some 0 ∧ a.payload[1]? = some 2) ∧
    (∃ r a, _source_thread example_env
        { remote := { addr := loopback, port := 6383 }, data_len := 1, num := 2,
          delay_min := 5000, delay_max := 15000 } 20 = some r ∧
      r.sent[1]? = some a ∧ a.id = 1 ∧ a.payload = [0]) := by
  constructor
  · obtain ⟨r, hr, hlen, _, hk, _, _⟩ :=
      send_loop_ids example_env idle_state ["source", "::1", "6383", "64", "3", "10"]
        example_request 20 (by decide) (by decide) (by decide) (by decide)
    obtain ⟨a, ha, _, hid, hres, hline, hpay, _⟩ := hk 2 (by decide)
    have hres2 : a.res = 64 := hres
    refine ⟨r, a, hr, hlen, ha, hid, ?_, hpay (by decide)⟩
    rw [hline, hres2]
    decide
  · obtain ⟨r, hr, _, _, hk, _, _⟩ :=
      send_loop_ids example_env idle_state ["source", "::1", "6383", "1", "2", "10"]
        { remote := { addr := loopback, port := 6383 }, data_len := 1, num := 2,
          delay_min := 5000, delay_max := 15000 } 20
        (by decide) (by decide) (by decide) (by decide)
    obtain ⟨a, ha, _, hid, _, _, _, hone⟩ := hk 1 (by decide)
    exact ⟨r, a, hr, ha, hid, hone rfl⟩

/-- C7: in every run, for every `k < num`: when the send of pass `k` fails
with `res < 0` the pass prints exactly `err;<id>;<code>`, `<id>` being
`k mod 2^16` as four lowercase hex digits and `<code>` the decimal of `-res`;
when it succeeds the pass prints `out;<id>`.  Either way the run goes on: if
`k + 1 < num` pass `k + 1` is made with id `(k + 1) mod 2^16`, and the number
of passes is `num`. -/
theorem send_failure_logged (env : SourceEnv) (st : SourceState) (argv : List String)
    (c : _source_config_t) (fuel k : Nat)
    (hacc : (_source_cmd env st argv).started = some c)
    (hsock : ¬ env.sock_udp_create c.remote < 0)
    (hfuel : c.num < fuel) (hfuel2 : 14 ≤ fuel) (hk : k < c.num) :
    ∃ r a, _source_thread env c fuel = some r ∧
      r.sent.length = c.num ∧
      r.sent[k]? = some a ∧ r.out[4 + k]? = some a.line ∧
      a.id = k % 2 ^ 16 ∧ a.res = env.sock_udp_send k ∧
      (a.res < 0 → -(2 : Int) ^ 31 < a.res →
        a.line = "err;" ++ hex4 (k % 2 ^ 16) ++ ";" ++ Nat.repr (-a.res).toNat) ∧
      (¬ a.res < 0 → a.line = "out;" ++ hex4 (k % 2 ^ 16)) ∧
      (k + 1 < c.num → ∃ b, r.sent[k + 1]? = some b ∧ b.id = (k + 1) % 2 ^ 16) := by
  obtain ⟨hnum, hlen⟩ := started_bounds env st argv c hacc
  obtain ⟨r, hr, hlenr, hout, hspec, _⟩ :=
    _source_thread_spec env c fuel hnum hlen hsock hfuel hfuel2
  obtain ⟨a, ha, sp⟩ := hspec k hk
  have hid : k % 2 ^ 16 < 2 ^ 16 := Nat.mod_lt _ (by norm_num)
  refine ⟨r, a, hr, hlenr, ha, ?_, sp.id_eq, sp.res_eq, ?_, ?_, ?_⟩
  · rw [hout, List.getElem?_append_right (by simp [start_lines])]
    simp [start_lines, ha]
  · intro h1 h2
    rw [sp.line_eq, ← sp.res_eq]
    exact send_line_err _ _ hid h1 h2
  · intro h1
    rw [sp.line_eq, ← sp.res_eq]
    exact send_line_out _ _ hid h1
  · intro h1
    obtain ⟨b, hb, spb⟩ := hspec (k + 1) h1
    exact ⟨b, hb, spb.id_eq⟩

theorem send_failure_logged_witness :
    ∃ r a b, _source_thread example_env example_request 20 = some r ∧
      r.sent[1]? = some a ∧ a.res = -101 ∧ a.line = "err;0001;101" ∧
      r.out[5]? = some a.line ∧ r.sent[2]? = some b ∧ b.id = 2 := by
  obtain ⟨r, a, h1, _, h3, hout, _, hres, herr, _, hnext⟩ :=
    send_failure_logged example_env idle_state ["source", "::1", "6383", "64", "3", "10"]
      example_request 20 1
      (by decide) (by decide) (by decide) (by decide) (by decide)
  obtain ⟨b, hb, hbid⟩ := hnext (by decide)
  have hres2 : a.res = -101 := hres
  refine ⟨r, a, b, h1, h3, hres2, ?_, hout, hb, hbid⟩
  rw [herr (by rw [hres2]; decide) (by rw [hres2]; decide), hres2]
  decide

/-- A call made while no run is active, with arguments that pass every check,
an address that parses, a thread that is created and a socket that opens,
returns 0 and starts the
thread on the parsed request. -/
theorem _source_cmd_accepted (env : SourceEnv) (st : SourceState) (argv : List String)
    (h1 : ¬ st._source_pid > KERNEL_PID_UNDEF) (h2 : 6 ≤ argv.length)
    (p1 : (parse_config env st._source_config argv).remote.port ≠ 0)
    (p2 : (parse_config env st._source_config argv).data_len ≠ 0)
    (p3 : (parse_config env st._source_config argv).data_len ≤ SOURCE_BUFSIZE)
    (p4 : (parse_config env st._source_config argv).num ≠ 0)
    (p5 : (parse_config env st._source_config argv).delay_min ≠ 0)
    (p6 : (parse_config env st._source_config argv).delay_max ≠ 0)
    (p7 : (env.ipv6_addr_from_str (parse_config env st._source_config argv).remote.addr
        (arg argv 1)).ok = true)
    (p8 : env.thread_create > KERNEL_PID_UNDEF)
    (p9 : ¬ env.sock_udp_create
      { (parse_config env st._source_config argv).remote with
        addr := (env.ipv6_addr_from_str (parse_config env st._source_config argv).remote.addr
          (arg argv 1)).result } < 0) :
    (_source_cmd env st argv).ret = some 0 ∧
      (_source_cmd env st argv).started =
        some { parse_config env st._source_config argv with
            remote := { (parse_config env st._source_config argv).remote with
              addr := (env.ipv6_addr_from_str
                (parse_config env st._source_config argv).remote.addr (arg argv 1)).result } } := by
  have h2 : ¬ argv.length < 6 := by omega
  have p3 : ¬ (parse_config env st._source_config argv).data_len > SOURCE_BUFSIZE / 2 * 2 := by
    unfold SOURCE_BUFSIZE at p3 ⊢
    omega
  unfold _source_cmd
  simp only [h1, h2, p1, p2, p3, p4, p5, p6, p7, p8, if_false, if_true, or_self,
    Bool.true_eq_false]
  rw [if_neg p9]
  exact ⟨rfl, rfl⟩

theorem list_of_length_three {α : Type} (l : List α) (h : l.length = 3) :
    ∃ a b c, l = [a, b, c] := by
  match l, h with
  | [a, b, c], _ => exact ⟨a, b, c, rfl⟩

theorem send_line_cases (id : Nat) (res : Int) :
    send_line id res = "out;" ++ fmt_04x id ∨
      ∃ code, send_line id res = "err;" ++ fmt_04x id ++ ";" ++ code := by
  unfold send_line
  by_cases h : res < 0
  · rw [if_pos h]; exact Or.inr ⟨_, rfl⟩
  · rw [if_neg h]; exact Or.inl rfl

/-- C9, as the claim states it, fails: for `::1 6383 64 3 10` the request
started has the delay bounds 5000 and 15000 microseconds, and these, not 7500
and 12500, are what each of the three passes gives the random generator. -/
theorem example_bounds_differ :
    ∃ c r, (_source_cmd example_env idle_state
          ["source", "::1", "6383", "64", "3", "10"]).started = some c ∧
      _source_thread example_env c 20 = some r ∧
      r.sent.map (fun a => (a.range_min, a.range_max)) =
        [(5000, 15000), (5000, 15000), (5000, 15000)] ∧
      ¬ (c.delay_min = 7500 ∧ c.delay_max = 12500) :=
  ⟨example_request,
   (_source_thread example_env
      example_request 20).getD
      { out := [], sent := [], buf := [], _source_pid := 0, closed := false },
   by decide, by rfl, by rfl, by decide⟩

/-- C9 (amended): the command `source ::1 6383 64 3 10`, given while no run is
active in an environment where `atoi` reads the decimal arguments, `::1`
parses and the thread and the socket are created, is accepted; the run prints,
after its four start lines, exactly three lines, the k-th being `out;000k` or
`err;000k;<code>` for k = 0, 1, 2 in that order; and the bounds given to the
random generator for each of the three delays are 5000 and 15000
microseconds. -/
theorem example_run (env : SourceEnv) (st : SourceState) (fuel : Nat)
    (hidle : ¬ st._source_pid > KERNEL_PID_UNDEF)
    (hport : env.atoi "6383" = 6383) (hlen : env.atoi "64" = 64)
    (hnum : env.atoi "3" = 3) (hmean : env.atoi "10" = 10)
    (haddr : ∀ old, (env.ipv6_addr_from_str old "::1").ok = true)
    (hthread : env.thread_create > KERNEL_PID_UNDEF)
    (hsock : ∀ ep, ¬ env.sock_udp_create ep < 0)
    (hfuel : 14 ≤ fuel) :
    ∃ c r l0 l1 l2,
      (_source_cmd env st ["source", "::1", "6383", "64", "3", "10"]).ret = some 0 ∧
      (_source_cmd env st ["source", "::1", "6383", "64", "3", "10"]).started = some c ∧
      c.remote.port = 6383 ∧ c.data_len = 64 ∧ c.num = 3 ∧
      c.delay_min = 5000 ∧ c.delay_max = 15000 ∧
      _source_thread env c fuel = some r ∧
      r.out = start_lines c ++ [l0, l1, l2] ∧
      (l0 = "out;0000" ∨ ∃ code, l0 = "err;0000;" ++ code) ∧
      (l1 = "out;0001" ∨ ∃ code, l1 = "err;0001;" ++ code) ∧
      (l2 = "out;0002" ∨ ∃ code, l2 = "err;0002;" ++ code) ∧
      r.sent.map (fun a => a.id) = [0, 1, 2] ∧
      r.sent.map (fun a => (a.range_min, a.range_max)) =
        [(5000, 15000), (5000, 15000), (5000, 15000)] := by
  obtain ⟨f1, _, f3, f4⟩ :=
    parse_config_fields env st._source_config ["source", "::1", "6383", "64", "3", "10"]
  obtain ⟨d1, d2⟩ :=
    (parse_config_delays env st._source_config ["source", "::1", "6383", "64", "3", "10"]).1
      (by decide)
  have a2 : arg ["source", "::1", "6383", "64", "3", "10"] 2 = "6383" := rfl
  have a3 : arg ["source", "::1", "6383", "64", "3", "10"] 3 = "64" := rfl
  have a4 : arg ["source", "::1", "6383", "64", "3", "10"] 4 = "3" := rfl
  have a5 : arg ["source", "::1", "6383", "64", "3", "10"] 5 = "10" := rfl
  have a1 : arg ["source", "::1", "6383", "64", "3", "10"] 1 = "::1" := rfl
  rw [a2, hport] at f1
  rw [a3, hlen] at f3
  rw [a4, hnum] at f4
  rw [a5, hmean] at d1 d2
  have e1 : to_uint16 6383 = 6383 := by decide
  have e2 : to_uint32 64 = 64 := by decide
  have e3 : to_uint32 3 = 3 := by decide
  have e4 : to_uint32 (10 * 1000) - to_uint32 (10 * 1000) / 2 = 5000 := by decide
  have e5 : (to_uint32 (10 * 1000) + to_uint32 (10 * 1000) / 2) % 2 ^ 32 = 15000 := by decide
  rw [e1] at f1
  rw [e2] at f3
  rw [e3] at f4
  rw [e4] at d1
  rw [e5] at d2
  obtain ⟨hret, hst⟩ := _source_cmd_accepted env st ["source", "::1", "6383", "64", "3", "10"]
    hidle (by decide) (by rw [f1]; decide) (by rw [f3]; decide) (by rw [f3]; decide)
    (by rw [f4]; decide) (by rw [d1]; decide) (by rw [d2]; decide) (by rw [a1]; exact haddr _)
    hthread (hsock _)
  obtain ⟨c, hc⟩ : ∃ c : _source_config_t, c =
      { parse_config env st._source_config ["source", "::1", "6383", "64", "3", "10"] with
        remote := { (parse_config env st._source_config
            ["source", "::1", "6383", "64", "3", "10"]).remote with
          addr := (env.ipv6_addr_from_str (parse_config env st._source_config
            ["source", "::1", "6383", "64", "3", "10"]).remote.addr
            (arg ["source", "::1", "6383", "64", "3", "10"] 1)).result } } := ⟨_, rfl⟩
  rw [← hc] at hst
  have f1 : c.remote.port = 6383 := by rw [hc]; exact f1
  have f3 : c.data_len = 64 := by rw [hc]; exact f3
  have f4 : c.num = 3 := by rw [hc]; exact f4
  have d1 : c.delay_min = 5000 := by rw [hc]; exact d1
  have d2 : c.delay_max = 15000 := by rw [hc]; exact d2
  clear hc
  obtain ⟨r, hr, hlenr, hout, hspec, _⟩ := _source_thread_spec env c fuel
    (by rw [f4]; decide) (by rw [f3]; decide) (hsock _) (by rw [f4]; omega) hfuel
  have hlen3 : r.sent.length = 3 := hlenr.trans f4
  obtain ⟨x0, x1, x2, hx⟩ := list_of_length_three r.sent hlen3
  obtain ⟨b0, hb0, s0⟩ := hspec 0 (by rw [f4]; decide)
  obtain ⟨b1, hb1, s1⟩ := hspec 1 (by rw [f4]; decide)
  obtain ⟨b2, hb2, s2⟩ := hspec 2 (by rw [f4]; decide)
  rw [hx] at hb0 hb1 hb2
  simp only [List.getElem?_cons_zero, List.getElem?_cons_succ, Option.some.injEq] at hb0 hb1 hb2
  subst hb0 hb1 hb2
  have q0 := send_line_cases (0 % 2 ^ 16) (env.sock_udp_send 0)
  have q1 := send_line_cases (1 % 2 ^ 16) (env.sock_udp_send 1)
  have q2 := send_line_cases (2 % 2 ^ 16) (env.sock_udp_send 2)
  rw [← s0.line_eq] at q0
  rw [← s1.line_eq] at q1
  rw [← s2.line_eq] at q2
  refine ⟨c, r, x0.line, x1.line, x2.line, hret, hst, f1, f3, f4, d1, d2, hr, ?_, q0, q1, q2,
    ?_, ?_⟩
  · rw [hout, hx]; rfl
  · rw [hx]
    simp only [List.map, s0.id_eq, s1.id_eq, s2.id_eq]
    rfl
  · rw [hx]
    simp only [List.map, s0.range_min_eq, s1.range_min_eq, s2.range_min_eq,
      s0.range_max_eq, s1.range_max_eq, s2.range_max_eq]
    rw [d1, d2]

theorem example_run_witness :
    ∃ r, _source_thread example_env
        example_request 20 = some r ∧
      r.sent.map (fun a => a.id) = [0, 1, 2] ∧
      r.sent.map (fun a => (a.range_min, a.range_max)) =
        [(5000, 15000), (5000, 15000), (5000, 15000)] := by
  obtain ⟨c, r, l0, l1, l2, _, hst, _, _, _, _, _, hr, _, _, _, _, hids, hb⟩ :=
    example_run example_env idle_state 20 (by decide) (by decide) (by decide) (by decide)
      (by decide) (fun _ => rfl) (by decide) (fun _ => (by decide : ¬ (0 : Int) < 0)) (by decide)
  have hc : c = example_request := by
    have h2 : (_source_cmd example_env idle_state
        ["source", "::1", "6383", "64", "3", "10"]).started = some example_request := by decide
    rw [hst] at h2
    exact Option.some.inj h2
  subst hc
  exact ⟨r, hr, hids, hb⟩

/-! ## Stamping and decoding -/

theorem mod_48_iff_dvd (j : Nat) : j % 48 = 0 ↔ SOURCE_BUF_OFFSET ∣ j := by
  unfold SOURCE_BUF_OFFSET
  omega

/-- The stamping loop on a buffer of `SOURCE_BUFSIZE / 2` words, started at
`j = 0` with any fuel from 14 on. -/
theorem stamp_loop_from_zero (buf : List network_uint16_t) (data_len id fuel : Nat)
    (hbuf : buf.length = SOURCE_BUFSIZE / 2) (hlen : data_len ≤ SOURCE_BUFSIZE)
    (hfuel : 14 ≤ fuel) :
    ∃ s, stamp_loop data_len id fuel 0 { buf := buf, written := [] } = some s ∧
      s.buf.length = SOURCE_BUFSIZE / 2 ∧
      (∀ j, j ∈ s.written ↔ (j % 48 = 0 ∧ j < data_len / 2)) ∧
      (∀ j, j ∈ s.written → j < SOURCE_BUFSIZE / 2 ∧ s.buf[j]? = some (byteorder_htons id)) ∧
      (∀ j, j ∉ s.written → s.buf[j]? = buf[j]?) := by
  obtain ⟨F, rfl⟩ : ∃ F, fuel = F + 1 := ⟨fuel - 1, by omega⟩
  have hlen2 : data_len ≤ 1232 := hlen
  have hbuf2 : buf.length = 616 := hbuf
  obtain ⟨s, hs, hl, hw, hv, hu⟩ :=
    stamp_loop_spec data_len id (by omega) F 0 { buf := buf, written := [] } (by omega)
  have hw2 : ∀ j, j ∈ s.written ↔ (j % 48 = 0 ∧ j < data_len / 2) := by
    intro j
    rw [hw j]
    simp
    omega
  refine ⟨s, hs, hl.trans hbuf, hw2, ?_, ?_⟩
  · intro j hj
    obtain ⟨h1, h2⟩ := (hw2 j).1 hj
    have hj616 : j < 616 := by omega
    exact ⟨hj616, hv j (Nat.zero_le _) h2 (by simpa using h1) (by simp only [hbuf2]; exact hj616)⟩
  · intro j hj
    apply hu j
    intro hh
    exact hj ((hw2 j).2 ⟨by simpa using hh.2.2, hh.2.1⟩)

theorem byteorder_htons_of_lt (id : Nat) (h : id < 2 ^ 16) :
    byteorder_htons id = { u8_0 := id / 256, u8_1 := id % 256 } := by
  unfold byteorder_htons
  have : id / 256 % 256 = id / 256 := by omega
  rw [this]

theorem list_two_heads (l : List Nat) (a b : Nat) (h0 : l[0]? = some a) (h1 : l[1]? = some b) :
    ∃ t, l = a :: b :: t := by
  match l, h0, h1 with
  | x :: y :: t, h0, h1 =>
    simp at h0 h1
    subst h0 h1
    exact ⟨t, rfl⟩

/-- C10: for every 16-bit id and every `data_len` up to `SOURCE_BUFSIZE`
(multiple of the stride or not), the stamping loop run on the 616-word buffer
terminates, the word indices it stores to are exactly the multiples of
`SOURCE_BUF_OFFSET` below `data_len / 2`, each of them lies inside the buffer
and holds the id high byte first afterwards, and every other word is as it
was. -/
theorem stamp_writes_stride (buf : List network_uint16_t) (data_len id fuel : Nat)
    (hbuf : buf.length = SOURCE_BUFSIZE / 2) (hlen : data_len ≤ SOURCE_BUFSIZE)
    (hid : id < 2 ^ 16) (hfuel : 14 ≤ fuel) :
    ∃ s, stamp_loop data_len id fuel 0 { buf := buf, written := [] } = some s ∧
      s.buf.length = SOURCE_BUFSIZE / 2 ∧
      (∀ j, j ∈ s.written ↔ (SOURCE_BUF_OFFSET ∣ j ∧ j < data_len / 2)) ∧
      (∀ j, j ∈ s.written → j < SOURCE_BUFSIZE / 2 ∧
        s.buf[j]? = some { u8_0 := id / 256, u8_1 := id % 256 }) ∧
      (∀ j, j ∉ s.written → s.buf[j]? = buf[j]?) := by
  obtain ⟨s, hs, hl, hw, hv, hu⟩ := stamp_loop_from_zero buf data_len id fuel hbuf hlen hfuel
  refine ⟨s, hs, hl, ?_, ?_, hu⟩
  · intro j
    rw [hw j, mod_48_iff_dvd]
  · intro j hj
    rw [← byteorder_htons_of_lt id hid]
    exact hv j hj

theorem stamp_writes_stride_witness :
    ∃ s, stamp_loop 200 0xabcd 14 0 { buf := idle_state._source_buf, written := [] } = some s ∧
      (∀ j, j ∈ s.written ↔ (SOURCE_BUF_OFFSET ∣ j ∧ j < 200 / 2)) :=
  have h := stamp_writes_stride idle_state._source_buf 200 0xabcd 14
    (List.length_replicate _ _) (by decide) (by decide) (by decide)
  h.elim fun s hs => ⟨s, hs.1, hs.2.2.1⟩

/-- C2: for every `data_len` from 2 to `SOURCE_BUFSIZE` and every 16-bit id,
the stamping loop ends and the `data_len` bytes then sent start with the high
byte and the low byte of the id; the sink, having received these bytes into
`_sink_buf`, reads back exactly the id with `byteorder_ntohs` of word 0. -/
theorem stamp_decode_roundtrip (buf sinkbuf : List network_uint16_t)
    (data_len id fuel : Nat) (remote : sock_udp_ep_t)
    (hbuf : buf.length = SOURCE_BUFSIZE / 2)
    (hlen2 : 2 ≤ data_len) (hlen : data_len ≤ SOURCE_BUFSIZE)
    (hid : id < 2 ^ 16) (hfuel : 14 ≤ fuel) :
    ∃ s, stamp_loop data_len id fuel 0 { buf := buf, written := [] } = some s ∧
      ((bytes_of s.buf).take data_len)[0]? = some (id / 256) ∧
      ((bytes_of s.buf).take data_len)[1]? = some (id % 256) ∧
      byteorder_ntohs
        (((RecvOutcome.datagram ((bytes_of s.buf).take data_len) remote).store sinkbuf).getD 0
          { u8_0 := 0, u8_1 := 0 }) = id := by
  obtain ⟨s, hs, hl, hw, hv, hu⟩ := stamp_loop_from_zero buf data_len id fuel hbuf hlen hfuel
  have h0 : s.buf[0]? = some (byteorder_htons id) :=
    (hv 0 ((hw 0).2 ⟨rfl, by omega⟩)).2
  obtain ⟨p0, p1⟩ := bytes_of_head _ _ h0 data_len hlen2
  rw [byteorder_htons_of_lt id hid] at p0 p1
  refine ⟨s, hs, p0, p1, ?_⟩
  obtain ⟨t, ht⟩ := list_two_heads _ _ _ p0 p1
  rw [ht]
  simp only [RecvOutcome.store, List.cons_append, words_of, List.getD_cons_zero, byteorder_ntohs]
  omega

theorem stamp_decode_roundtrip_witness :
    ∃ s, stamp_loop 64 5 14 0 { buf := idle_state._source_buf, written := [] } = some s ∧
      ((bytes_of s.buf).take 64)[0]? = some 0 ∧ ((bytes_of s.buf).take 64)[1]? = some 5 :=
  have h := stamp_decode_roundtrip idle_state._source_buf idle_state._source_buf 64 5 14
    { addr := loopback, port := 40000 } (List.length_replicate _ _) (by decide) (by decide)
    (by decide) (by decide)
  h.elim fun s hs => ⟨s, hs.1, hs.2.1, hs.2.2.1⟩

/-! ## The sink -/

end LCN
